import Mathlib

/-!
# RSS feed routes of Lemmy (`crates/routes/src/feeds.rs`): a shallow embedding

This file embeds the feed-assembly code of `crates/routes/src/feeds.rs` in
Lean 4 and proves properties of the embedded functions.  The storage layer,
authentication, the markdown renderer, the permalink builder and the private
instance check are collaborators living outside this crate; they are modelled
from the specification and marked as such in their doc comments.  Everything
else is a direct transcription of the Rust source: mutable local variables
become `let` rebindings, `?` propagation becomes explicit matching on
`Except`, and the async database calls become lookups in an explicit `World`
structure while the performed storage operations are logged alongside the
result.
-/

namespace Feeds

/-! ## Errors -/

/-- The subset of `LemmyErrorType` reachable from this file.  `NotFound` and
`InstanceIsPrivate` follow the spec taxonomy (`NotFound`, `ServiceUnavailable`
for the private-instance gate); `Unauthorized` stands for a failed JWT
resolution; `InvalidUrl` is a failed permalink parse. -/
inductive LemmyErrorType where
  | NotFound
  | InstanceIsPrivate
  | Unauthorized
  | InvalidUrl
deriving DecidableEq

/-- The error produced by `PostSortType::from_str` (strum's
`ParseError::VariantNotFound`), remembering the offending string. -/
inductive ParseSortError where
  | invalidVariant (s : String)
deriving DecidableEq

/-- The actix-web error as visible from this file: the three constructors
built through `ErrorBadRequest` carry HTTP status 400; `fromLemmy` is the
generic `From<LemmyError>` conversion used by `?` in `get_all_feed` and
`get_local_feed`, whose status mapping lives outside this crate. -/
inductive ActixError where
  | badRequestSort (e : ParseSortError)
  | badRequestLemmy (e : LemmyErrorType)
  | badRequestMsg (s : String)
  | fromLemmy (e : LemmyErrorType)
deriving DecidableEq

/-- An error constructed through `actix_web::error::ErrorBadRequest`
carries HTTP status 400. -/
def ActixError.is_bad_request : ActixError → Bool
  | .badRequestSort _ => true
  | .badRequestLemmy _ => true
  | .badRequestMsg _ => true
  | .fromLemmy _ => false

/-- Whether an `Except` computation succeeded. -/
def except_is_ok {ε α : Type} : Except ε α → Bool
  | .ok _ => true
  | .error _ => false

/-! ## Settings and collaborator functions -/

/-- The part of `lemmy_utils::settings::structs::Settings` this file uses:
only `get_protocol_and_hostname` is ever called. -/
structure Settings where
  protocol_and_hostname : String
deriving DecidableEq

def Settings.get_protocol_and_hostname (s : Settings) : String :=
  s.protocol_and_hostname

/-- Modelled from the spec: the markdown renderer collaborator,
`toHtml(text) -> html string` (`lemmy_utils::utils::markdown::markdown_to_html`,
outside this crate), "treated as a pure function text→HTML".  The model keeps
an empty text empty and wraps non-empty text in a paragraph element; all this
file relies on is that it is a pure function. -/
def markdown_to_html (text : String) : String :=
  if text = "" then "" else "<p>" ++ text ++ "</p>\n"

/-- `str::starts_with`, written on the underlying character lists (the
byte-position implementation of `String.startsWith` is opaque to kernel
reduction, which concrete witnesses need). -/
def string_starts_with (s pre : String) : Bool :=
  pre.data.isPrefixOf s.data

/-- Modelled from the spec: URL parsing inside the permalink-builder
collaborator `localUrl(entity, settings) -> URL | Error`
(`lemmy_db_schema`, outside this crate).  An absolute URL string is accepted
when it carries an http(s) scheme and rejected otherwise. -/
def parse_url (s : String) : Except LemmyErrorType String :=
  if string_starts_with s "http://" || string_starts_with s "https://" then .ok s
  else .error .InvalidUrl

/-! ## Sort modes and query parameters -/

/-- Modelled from the spec: the closed `SortMode`/`PostSortType` enumeration
(`lemmy_db_schema_file::enums::PostSortType`, outside this crate; the spec
lists "Hot, New, Top, …" with platform default `Hot`). -/
inductive PostSortType where
  | Active
  | Hot
  | New
  | Old
  | Top
  | MostComments
  | NewComments
  | Controversial
  | Scaled
deriving DecidableEq

/-- The `Display` form of a sort mode (its variant name). -/
def PostSortType.toDisplay : PostSortType → String
  | .Active => "Active"
  | .Hot => "Hot"
  | .New => "New"
  | .Old => "Old"
  | .Top => "Top"
  | .MostComments => "MostComments"
  | .NewComments => "NewComments"
  | .Controversial => "Controversial"
  | .Scaled => "Scaled"

/-- All variants of the enumeration. -/
def PostSortType.all : List PostSortType :=
  [.Active, .Hot, .New, .Old, .Top, .MostComments, .NewComments,
   .Controversial, .Scaled]

/-- Modelled from the spec: `FromStr` for the sort enumeration — the exact
variant name parses back to the variant, anything else is a
variant-not-found error. -/
def PostSortType.from_str (s : String) : Except ParseSortError PostSortType :=
  match PostSortType.all.find? (fun m => m.toDisplay == s) with
  | some m => .ok m
  | none => .error (.invalidVariant s)

/-- Modelled from the spec: the listing scope enumeration
(`lemmy_db_schema_file::enums::ListingType`, outside this crate),
restricted to the scopes this file uses. -/
inductive ListingType where
  | All
  | Local
  | Subscribed
deriving DecidableEq

/-- The `Display` form of a listing scope, used in the channel title. -/
def ListingType.toDisplay : ListingType → String
  | .All => "All"
  | .Local => "Local"
  | .Subscribed => "Subscribed"

/-- `const RSS_FETCH_LIMIT: i64 = 20;` -/
def RSS_FETCH_LIMIT : Int := 20

/-- The deserialized query string `Params { sort, limit }`. -/
structure Params where
  sort : Option String
  limit : Option Int
deriving DecidableEq

/-- `Params::sort_type`: the missing `sort` parameter defaults to
`PostSortType::Hot.to_string()`; the string is parsed with
`PostSortType::from_str` and a parse failure is wrapped in
`ErrorBadRequest`. -/
def Params.sort_type (p : Params) : Except ActixError PostSortType :=
  let sort_query := p.sort.getD PostSortType.Hot.toDisplay
  (PostSortType.from_str sort_query).mapError ActixError.badRequestSort

/-- `Params::get_limit`: the missing `limit` parameter defaults to
`RSS_FETCH_LIMIT`; a present one is used verbatim. -/
def Params.get_limit (p : Params) : Int :=
  p.limit.getD RSS_FETCH_LIMIT

/-! ## The data model -/

/-- Modelled from the spec: timestamps appear in this file only through
`DateTime::<Utc>::to_rfc2822`, so a timestamp is carried as its RFC-2822
rendering. -/
structure DateTime where
  rfc2822 : String
deriving DecidableEq

def DateTime.to_rfc2822 (d : DateTime) : String := d.rfc2822

structure Person where
  id : Nat
  name : String
  ap_id : String
deriving DecidableEq

/-- A community; `visibility_public` is the value of
`community.visibility.can_view_without_login()`. -/
structure Community where
  id : Nat
  name : String
  title : String
  ap_id : String
  description : Option String
  visibility_public : Bool
deriving DecidableEq

structure Post where
  id : Nat
  name : String
  body : Option String
  url : Option String
  url_content_type : Option String
  thumbnail_url : Option String
  score : Int
  comments : Int
  published : DateTime
deriving DecidableEq

structure Comment where
  id : Nat
  content : String
  published : DateTime
deriving DecidableEq

structure PrivateMessage where
  id : Nat
  content : String
  published : DateTime
deriving DecidableEq

structure Site where
  name : String
  description : Option String
  instance_id : Nat
deriving DecidableEq

structure LocalSite where
  private_instance : Bool
deriving DecidableEq

structure SiteView where
  site : Site
  local_site : LocalSite
deriving DecidableEq

structure LocalUser where
  show_bot_accounts : Bool
deriving DecidableEq

structure LocalUserView where
  person : Person
  local_user : LocalUser
deriving DecidableEq

structure PostView where
  post : Post
  creator : Person
  community : Community
deriving DecidableEq

structure CommentReplyView where
  comment : Comment
  creator : Person
deriving DecidableEq

structure PersonCommentMentionView where
  comment : Comment
  creator : Person
deriving DecidableEq

structure PersonPostMentionView where
  post : Post
  creator : Person
deriving DecidableEq

structure PrivateMessageView where
  private_message : PrivateMessage
  creator : Person
deriving DecidableEq

/-- `lemmy_db_views_inbox_combined::InboxCombinedView`, restricted to the
fields this file reads. -/
inductive InboxCombinedView where
  | CommentReply (v : CommentReplyView)
  | CommentMention (v : PersonCommentMentionView)
  | PostMention (v : PersonPostMentionView)
  | PrivateMessage (v : PrivateMessageView)
deriving DecidableEq

/-- A record of the person-content combined query; `get_feed_user` keeps
only the post entries via `to_post_view`. -/
inductive PersonContentCombinedView where
  | post (v : PostView)
  | comment (c : Comment)
deriving DecidableEq

def PersonContentCombinedView.to_post_view :
    PersonContentCombinedView → Option PostView
  | .post v => some v
  | .comment _ => none

/-! ## Permalinks (collaborator) -/

/-- Modelled from the spec: the permalink builder `localUrl` for a post —
the canonical absolute URL `{base}/post/{id}`, passed through URL parsing. -/
def Post.local_url (p : Post) (settings : Settings) :
    Except LemmyErrorType String :=
  parse_url (settings.get_protocol_and_hostname ++ "/post/" ++ toString p.id)

/-- Modelled from the spec: the permalink builder `localUrl` for a comment —
the canonical absolute URL `{base}/comment/{id}`, passed through URL
parsing. -/
def Comment.local_url (c : Comment) (settings : Settings) :
    Except LemmyErrorType String :=
  parse_url (settings.get_protocol_and_hostname ++ "/comment/" ++ toString c.id)

/-- Modelled from the spec: `Community::local_url(name, settings)` — the
canonical absolute URL `{base}/c/{name}`, passed through URL parsing. -/
def Community.local_url (name : String) (settings : Settings) :
    Except LemmyErrorType String :=
  parse_url (settings.get_protocol_and_hostname ++ "/c/" ++ name)

/-- Modelled from the spec: the access-policy collaborator
`checkPrivateInstance(identity?, siteConfig) -> ok | Forbidden`
(`lemmy_api_common::utils::check_private_instance`): it fails exactly when
the instance is marked private and no identity is supplied. -/
def check_private_instance (local_user : Option LocalUserView)
    (local_site : LocalSite) : Except LemmyErrorType Unit :=
  if local_site.private_instance && local_user.isNone then
    .error .InstanceIsPrivate
  else .ok ()

/-! ## The rss crate's data model (the parts this file constructs) -/

structure Guid where
  permalink : Bool
  value : String
deriving DecidableEq

structure Category where
  name : String
  domain : Option String
deriving DecidableEq

structure Enclosure where
  url : String
  mime_type : String
  length : String
deriving DecidableEq

/-- The `media:content` extension tag attached for a thumbnail:
`{url, medium="image"}`. -/
structure MediaContent where
  url : String
  medium : String
deriving DecidableEq

/-- An rss `Item`, restricted to the fields this file sets.
`dublin_core_creators` is the `creators` list of the Dublin Core extension;
`media_content` is the thumbnail extension tag when present. -/
structure Item where
  title : Option String := none
  link : Option String := none
  pub_date : Option String := none
  comments : Option String := none
  author : Option String := none
  guid : Option Guid := none
  description : Option String := none
  dublin_core_creators : List String := []
  enclosure : Option Enclosure := none
  categories : List Category := []
  media_content : Option MediaContent := none
deriving DecidableEq

/-- An rss `Channel`, restricted to the fields this file sets.  The
description is carried as an `Option` so that "set" and "never set" stay
distinguishable, as in the spec's `FeedChannel`. -/
structure Channel where
  namespaces : List (String × String) := []
  title : String := ""
  link : String := ""
  description : Option String := none
  items : List Item := []
deriving DecidableEq

def Channel.set_description (c : Channel) (d : String) : Channel :=
  { c with description := some d }

/-- The static `RSS_NAMESPACE` table: Dublin Core and Media RSS. -/
def RSS_NAMESPACE : List (String × String) :=
  [("dc", "http://purl.org/dc/elements/1.1/"),
   ("media", "http://search.yahoo.com/mrss/")]

/-- The HTTP response built by the handlers: the `application/rss+xml`
content type and the channel whose XML rendering is the body (the XML
serializer is the rss crate's, outside this file). -/
structure HttpResponse where
  content_type : String
  channel : Channel
deriving DecidableEq

/-! ## Item construction -/

/-- `build_item`: one inbox notification rendered as an rss item. -/
def build_item (creator_name : String) (published : DateTime) (url : String)
    (content : String) (protocol_and_hostname : String) :
    Except LemmyErrorType Item :=
  let guid := some { permalink := true, value := url : Guid }
  let description := some (markdown_to_html content)
  .ok { title := some ("Reply from " ++ creator_name),
        author := some ("/u/" ++ creator_name ++ " <a href=\"" ++
          (protocol_and_hostname ++ "/u/" ++ creator_name) ++ "\">(link)</a>"),
        pub_date := some published.to_rfc2822,
        comments := some url,
        link := some url,
        guid := guid,
        description := description }

/-- `create_reply_and_mention_items`: the inbox records mapped through
`build_item`, collected as `LemmyResult<Vec<Item>>` — the first error
aborts the whole list. -/
def create_reply_and_mention_items :
    List InboxCombinedView → String → Settings →
      Except LemmyErrorType (List Item)
  | [], _, _ => .ok []
  | r :: rest, protocol_and_hostname, settings =>
    let head : Except LemmyErrorType Item :=
      match r with
      | .CommentReply v =>
        match v.comment.local_url settings with
        | .error e => .error e
        | .ok reply_url =>
          build_item v.creator.name v.comment.published reply_url
            v.comment.content protocol_and_hostname
      | .CommentMention v =>
        match v.comment.local_url settings with
        | .error e => .error e
        | .ok mention_url =>
          build_item v.creator.name v.comment.published mention_url
            v.comment.content protocol_and_hostname
      | .PostMention v =>
        match v.post.local_url settings with
        | .error e => .error e
        | .ok mention_url =>
          build_item v.creator.name v.post.published mention_url
            (v.post.body.getD "") protocol_and_hostname
      | .PrivateMessage v =>
        let inbox_url := protocol_and_hostname ++ "/inbox"
        build_item v.creator.name v.private_message.published inbox_url
          v.private_message.content protocol_and_hostname
    match head with
    | .error e => .error e
    | .ok i =>
      match create_reply_and_mention_items rest protocol_and_hostname settings with
      | .error e => .error e
      | .ok tail => .ok (i :: tail)

/-- `create_post_items`: the `for p in posts` loop — each post becomes an
item, the first `?` failure aborts the whole list. -/
def create_post_items : List PostView → Settings →
    Except LemmyErrorType (List Item)
  | [], _ => .ok []
  | p :: rest, settings =>
    match p.post.local_url settings with
    | .error e => .error e
    | .ok post_url =>
      match Community.local_url p.community.name settings with
      | .error e => .error e
      | .ok community_url =>
        let dublin_core_creators := [p.creator.ap_id]
        let guid := some { permalink := true, value := post_url : Guid }
        let description :=
          "submitted by <a href=\"" ++ p.creator.ap_id ++ "\">" ++
            p.creator.name ++ "</a> to <a href=\"" ++ community_url ++ "\">" ++
            p.community.name ++ "</a><br>" ++ toString p.post.score ++
            " points | <a href=\"" ++ post_url ++ "\">" ++
            toString p.post.comments ++ " comments</a>"
        let step : String × Option Enclosure :=
          match p.post.url with
          | some url =>
            let mime_type := p.post.url_content_type.getD "application/octet-stream"
            let link_html :=
              if string_starts_with mime_type "image/" then
                "<br><a href=\"" ++ url ++ "\"><img src=\"" ++ url ++ "\"/></a>"
              else
                "<br><a href=\"" ++ url ++ "\">" ++ url ++ "</a>"
            (description ++ link_html,
             some { url := url, mime_type := mime_type, length := "0" })
          | none => (description, none)
        let description := step.1
        let enclosure_opt := step.2
        let description :=
          match p.post.body with
          | some body => description ++ markdown_to_html body
          | none => description
        let media_content :=
          p.post.thumbnail_url.map (fun u => { url := u, medium := "image" : MediaContent })
        let category : Category :=
          { name := p.community.title, domain := some p.community.ap_id }
        let i : Item :=
          { title := some ("[" ++ p.community.name ++ "] " ++ p.post.name),
            pub_date := some p.post.published.to_rfc2822,
            comments := some post_url,
            guid := guid,
            description := some description,
            dublin_core_creators := dublin_core_creators,
            link := some post_url,
            media_content := media_content,
            enclosure := enclosure_opt,
            categories := [category] }
        match create_post_items rest settings with
        | .error e => .error e
        | .ok tail => .ok (i :: tail)

/-! ## The storage collaborator -/

/-- The argument record of `PostQuery { .. }`; fields not set by this file
keep their `Default` value `none`. -/
structure PostQueryArgs where
  listing_type : Option ListingType := none
  sort : Option PostSortType := none
  limit : Option Int := none
  community_id : Option Nat := none
  for_local_user : Option LocalUser := none
deriving DecidableEq

/-- The argument record of `PersonContentCombinedQuery`; `type_posts` is
`type_: Some(PersonContentType::Posts)`. -/
structure PersonContentCombinedQueryArgs where
  creator_id : Nat
  type_posts : Bool
  limit : Option Int
deriving DecidableEq

/-- The argument record of `InboxCombinedQuery { show_bot_accounts, .. }`. -/
structure InboxCombinedQueryArgs where
  show_bot_accounts : Option Bool
deriving DecidableEq

/-- One storage-layer operation, as logged by the handlers. -/
inductive StorageOp where
  | readSite
  | readPerson (name : String)
  | readCommunity (name : String)
  | postQuery (q : PostQueryArgs)
  | personContentQuery (q : PersonContentCombinedQueryArgs)
  | inboxQuery (q : InboxCombinedQueryArgs)
deriving DecidableEq

/-- Whether a storage operation is a content query (as opposed to a
metadata or entity read). -/
def StorageOp.isContentQuery : StorageOp → Bool
  | .postQuery _ => true
  | .personContentQuery _ => true
  | .inboxQuery _ => true
  | _ => false

/-- The storage and authentication collaborators as one black-box value:
each field answers one kind of read this file performs. -/
structure World where
  site_view : SiteView
  person_by_name : String → Option Person
  community_by_name : String → Option Community
  post_query : PostQueryArgs → List PostView
  person_content_query : PersonContentCombinedQueryArgs → List PersonContentCombinedView
  inbox_query : InboxCombinedQueryArgs → List InboxCombinedView
  user_from_jwt : String → Option LocalUserView

/-! ## The handlers

Each handler returns its result paired with the list of storage operations
it performed, in order. -/

/-- `get_feed_data` (backing `/feeds/all.xml` and `/feeds/local.xml`). -/
def get_feed_data (w : World) (settings : Settings)
    (listing_type : ListingType) (sort_type : PostSortType) (limit : Int) :
    Except LemmyErrorType HttpResponse × List StorageOp :=
  let site_view := w.site_view
  match check_private_instance none site_view.local_site with
  | .error e => (.error e, [.readSite])
  | .ok _ =>
    let q : PostQueryArgs :=
      { listing_type := some listing_type, sort := some sort_type,
        limit := some limit }
    let posts := w.post_query q
    match create_post_items posts settings with
    | .error e => (.error e, [.readSite, .postQuery q])
    | .ok items =>
      let channel : Channel :=
        { namespaces := RSS_NAMESPACE,
          title := site_view.site.name ++ " - " ++ listing_type.toDisplay,
          link := settings.get_protocol_and_hostname,
          items := items }
      let channel :=
        match site_view.site.description with
        | some site_desc => channel.set_description site_desc
        | none => channel
      (.ok { content_type := "application/rss+xml", channel := channel },
       [.readSite, .postQuery q])

/-- `get_all_feed`: `info.sort_type()?` is evaluated before `get_feed_data`
runs, so a bad sort string aborts with no storage operation. -/
def get_all_feed (w : World) (settings : Settings) (info : Params) :
    Except ActixError HttpResponse × List StorageOp :=
  match info.sort_type with
  | .error e => (.error e, [])
  | .ok st =>
    let r := get_feed_data w settings .All st info.get_limit
    (r.1.mapError ActixError.fromLemmy, r.2)

/-- `get_local_feed`. -/
def get_local_feed (w : World) (settings : Settings) (info : Params) :
    Except ActixError HttpResponse × List StorageOp :=
  match info.sort_type with
  | .error e => (.error e, [])
  | .ok st =>
    let r := get_feed_data w settings .Local st info.get_limit
    (r.1.mapError ActixError.fromLemmy, r.2)

/-- `get_feed_user`: the person is resolved (and `NotFound` raised) before
the private-instance check; the sort parameter is never consulted. -/
def get_feed_user (w : World) (settings : Settings) (limit : Int)
    (user_name : String) :
    Except LemmyErrorType Channel × List StorageOp :=
  let site_view := w.site_view
  match w.person_by_name user_name with
  | none => (.error .NotFound, [.readSite, .readPerson user_name])
  | some person =>
    match check_private_instance none site_view.local_site with
    | .error e => (.error e, [.readSite, .readPerson user_name])
    | .ok _ =>
      let q : PersonContentCombinedQueryArgs :=
        { creator_id := person.id, type_posts := true, limit := some limit }
      let content := w.person_content_query q
      let posts := content.filterMap PersonContentCombinedView.to_post_view
      let log := [StorageOp.readSite, .readPerson user_name, .personContentQuery q]
      match create_post_items posts settings with
      | .error e => (.error e, log)
      | .ok items =>
        (.ok { namespaces := RSS_NAMESPACE,
               title := site_view.site.name ++ " - " ++ person.name,
               link := person.ap_id,
               items := items }, log)

/-- `get_feed_community`: the community is resolved (and `NotFound` raised,
also for a community hidden from anonymous viewers) before the
private-instance check. -/
def get_feed_community (w : World) (settings : Settings)
    (sort_type : PostSortType) (limit : Int) (community_name : String) :
    Except LemmyErrorType Channel × List StorageOp :=
  let site_view := w.site_view
  match w.community_by_name community_name with
  | none => (.error .NotFound, [.readSite, .readCommunity community_name])
  | some community =>
    if !community.visibility_public then
      (.error .NotFound, [.readSite, .readCommunity community_name])
    else
      match check_private_instance none site_view.local_site with
      | .error e => (.error e, [.readSite, .readCommunity community_name])
      | .ok _ =>
        let q : PostQueryArgs :=
          { sort := some sort_type, community_id := some community.id,
            limit := some limit }
        let posts := w.post_query q
        let log := [StorageOp.readSite, .readCommunity community_name, .postQuery q]
        match create_post_items posts settings with
        | .error e => (.error e, log)
        | .ok items =>
          let channel : Channel :=
            { namespaces := RSS_NAMESPACE,
              title := site_view.site.name ++ " - " ++ community.name,
              link := community.ap_id,
              items := items }
          let channel :=
            match community.description with
            | some community_desc =>
              channel.set_description (markdown_to_html community_desc)
            | none => channel
          (.ok channel, log)

/-- `get_feed_front`: the JWT is resolved to an identity which is then
passed to the private-instance check. -/
def get_feed_front (w : World) (settings : Settings)
    (sort_type : PostSortType) (limit : Int) (jwt : String) :
    Except LemmyErrorType Channel × List StorageOp :=
  let site_view := w.site_view
  match w.user_from_jwt jwt with
  | none => (.error .Unauthorized, [.readSite])
  | some local_user =>
    match check_private_instance (some local_user) site_view.local_site with
    | .error e => (.error e, [.readSite])
    | .ok _ =>
      let q : PostQueryArgs :=
        { listing_type := some .Subscribed,
          for_local_user := some local_user.local_user,
          sort := some sort_type, limit := some limit }
      let posts := w.post_query q
      let protocol_and_hostname := settings.get_protocol_and_hostname
      match create_post_items posts settings with
      | .error e => (.error e, [.readSite, .postQuery q])
      | .ok items =>
        let channel : Channel :=
          { namespaces := RSS_NAMESPACE,
            title := site_view.site.name ++ " - Subscribed",
            link := protocol_and_hostname,
            items := items }
        let channel :=
          match site_view.site.description with
          | some site_desc =>
            channel.set_description (markdown_to_html site_desc)
          | none => channel
        (.ok channel, [.readSite, .postQuery q])

/-- `get_feed_inbox`: the combined notification query for the resolved
identity, honouring its bot-account preference. -/
def get_feed_inbox (w : World) (settings : Settings) (jwt : String) :
    Except LemmyErrorType Channel × List StorageOp :=
  let site_view := w.site_view
  match w.user_from_jwt jwt with
  | none => (.error .Unauthorized, [.readSite])
  | some local_user =>
    match check_private_instance (some local_user) site_view.local_site with
    | .error e => (.error e, [.readSite])
    | .ok _ =>
      let q : InboxCombinedQueryArgs :=
        { show_bot_accounts := some local_user.local_user.show_bot_accounts }
      let inbox := w.inbox_query q
      let protocol_and_hostname := settings.get_protocol_and_hostname
      match create_reply_and_mention_items inbox protocol_and_hostname settings with
      | .error e => (.error e, [.readSite, .inboxQuery q])
      | .ok items =>
        let channel : Channel :=
          { namespaces := RSS_NAMESPACE,
            title := site_view.site.name ++ " - Inbox",
            link := protocol_and_hostname ++ "/inbox",
            items := items }
        let channel :=
          match site_view.site.description with
          | some site_desc => channel.set_description site_desc
          | none => channel
        (.ok channel, [.readSite, .inboxQuery q])

/-- `get_feed` (the `/feeds/{type}/{name}.xml` route): dispatch on the type
segment; for `c` and `front` the sort parameter is parsed as an argument of
the handler call (so a parse failure aborts before any storage access), for
`u` and `inbox` it is never parsed; the builder result is wrapped with
`map_err(ErrorBadRequest)`. -/
def get_feed (w : World) (settings : Settings) (req_type : String)
    (param : String) (info : Params) :
    Except ActixError HttpResponse × List StorageOp :=
  let to_response (r : Except LemmyErrorType Channel × List StorageOp) :
      Except ActixError HttpResponse × List StorageOp :=
    ((r.1.mapError ActixError.badRequestLemmy).map
       (fun channel => { content_type := "application/rss+xml", channel := channel }),
     r.2)
  match req_type with
  | "u" => to_response (get_feed_user w settings info.get_limit param)
  | "c" =>
    match info.sort_type with
    | .error e => (.error e, [])
    | .ok st => to_response (get_feed_community w settings st info.get_limit param)
  | "front" =>
    match info.sort_type with
    | .error e => (.error e, [])
    | .ok st => to_response (get_feed_front w settings st info.get_limit param)
  | "inbox" => to_response (get_feed_inbox w settings param)
  | _ => (.error (.badRequestMsg "wrong_type"), [])

/-- The route table of `config`: the six feed routes. -/
inductive FeedRoute where
  | u (name : String)
  | c (name : String)
  | front (jwt : String)
  | inbox (jwt : String)
  | all
  | local
deriving DecidableEq

/-- One feed request dispatched through the route table. -/
def handle (w : World) (settings : Settings) (route : FeedRoute)
    (info : Params) : Except ActixError HttpResponse × List StorageOp :=
  match route with
  | .u name => get_feed w settings "u" name info
  | .c name => get_feed w settings "c" name info
  | .front jwt => get_feed w settings "front" jwt info
  | .inbox jwt => get_feed w settings "inbox" jwt info
  | .all => get_all_feed w settings info
  | .local => get_local_feed w settings info

/-- Decidable equality of `Except` results, so that concrete runs can be
checked by `decide`. -/
instance {ε α : Type} [DecidableEq ε] [DecidableEq α] :
    DecidableEq (Except ε α) := fun a b =>
  match a, b with
  | .ok x, .ok y =>
    match decEq x y with
    | .isTrue h => .isTrue (by rw [h])
    | .isFalse h => .isFalse (by intro hh; cases hh; exact h rfl)
  | .error x, .error y =>
    match decEq x y with
    | .isTrue h => .isTrue (by rw [h])
    | .isFalse h => .isFalse (by intro hh; cases hh; exact h rfl)
  | .ok _, .error _ => .isFalse (by intro hh; cases hh)
  | .error _, .ok _ => .isFalse (by intro hh; cases hh)

/-! ## Concrete inputs used by witnesses and counterexamples -/

def demo_settings : Settings := { protocol_and_hostname := "https://example.com" }

/-- A settings value whose base is not a parseable absolute URL, so the
permalink builder fails on it. -/
def bad_settings : Settings := { protocol_and_hostname := "example.invalid" }

def demo_person : Person :=
  { id := 1, name := "alice", ap_id := "https://example.com/u/alice" }

def demo_community : Community :=
  { id := 5, name := "rust", title := "Rust Programming",
    ap_id := "https://example.com/c/rust",
    description := some "*about rust*", visibility_public := true }

def demo_time : DateTime := { rfc2822 := "Mon, 01 Jan 2024 00:00:00 +0000" }

def demo_post1 : Post :=
  { id := 1, name := "First", body := some "hello", url := none,
    url_content_type := none, thumbnail_url := none,
    score := 3, comments := 2, published := demo_time }

def demo_post2 : Post :=
  { id := 2, name := "Second", body := none,
    url := some "https://img.example.com/x.png",
    url_content_type := some "image/png", thumbnail_url := none,
    score := 0, comments := 0, published := demo_time }

def demo_post_view1 : PostView :=
  { post := demo_post1, creator := demo_person, community := demo_community }

def demo_post_view2 : PostView :=
  { post := demo_post2, creator := demo_person, community := demo_community }

def demo_posts : List PostView := [demo_post_view1, demo_post_view2]

def demo_comment : Comment :=
  { id := 9, content := "nice post", published := demo_time }

def demo_reply : CommentReplyView :=
  { comment := demo_comment, creator := demo_person }

def demo_pm1 : PrivateMessageView :=
  { private_message := { id := 1, content := "hi", published := demo_time },
    creator := demo_person }

def demo_pm2 : PrivateMessageView :=
  { private_message := { id := 2, content := "yo", published := demo_time },
    creator := demo_person }

def demo_site_view : SiteView :=
  { site := { name := "Demo", description := some "**about**", instance_id := 7 },
    local_site := { private_instance := false } }

def demo_world : World :=
  { site_view := demo_site_view,
    person_by_name := fun n => if n = "alice" then some demo_person else none,
    community_by_name := fun n => if n = "rust" then some demo_community else none,
    post_query := fun _ => [],
    person_content_query := fun _ => [],
    inbox_query := fun _ => [],
    user_from_jwt := fun _ => none }

def demo_private_world : World :=
  { demo_world with
    site_view := { demo_site_view with local_site := { private_instance := true } } }

/-! ## Helper lemmas -/

/-- A string matching no variant name fails to parse. -/
theorem from_str_not_a_variant (s : String)
    (h : ∀ m : PostSortType, m.toDisplay ≠ s) :
    PostSortType.from_str s = .error (.invalidVariant s) := by
  unfold PostSortType.from_str
  have hfind : PostSortType.all.find? (fun m => m.toDisplay == s) = none := by
    apply List.find?_eq_none.mpr
    intro m _
    simpa using h m
  rw [hfind]

/-- A present but invalid sort string makes `Params::sort_type` fail with
the wrapped variant-not-found error. -/
theorem sort_type_invalid (s : String) (l : Option Int)
    (h : ∀ m : PostSortType, m.toDisplay ≠ s) :
    Params.sort_type { sort := some s, limit := l } =
      .error (.badRequestSort (.invalidVariant s)) := by
  show (PostSortType.from_str s).mapError ActixError.badRequestSort = _
  rw [from_str_not_a_variant s h]
  rfl

/-! ## C8: sort parameter resolution -/

/-- C8: parameter resolution succeeds with the matching mode on every
variant name of the sort enumeration, defaults to `Hot` when the parameter
is absent, and fails with the 400 variant-not-found error on every other
string. -/
theorem sort_param_resolution (l : Option Int) :
    (∀ m : PostSortType, PostSortType.from_str m.toDisplay = .ok m) ∧
    (Params.sort_type { sort := none, limit := l } = .ok .Hot) ∧
    (∀ s : String, (∀ m : PostSortType, m.toDisplay ≠ s) →
      Params.sort_type { sort := some s, limit := l } =
        .error (.badRequestSort (.invalidVariant s)) ∧
      (ActixError.badRequestSort (.invalidVariant s)).is_bad_request = true) := by
  refine ⟨?_, rfl, ?_⟩
  · intro m; cases m <;> rfl
  · intro s h
    exact ⟨sort_type_invalid s l h, rfl⟩

/-- C8 witness: `"bogus"` is no variant name and is rejected with the 400
variant-not-found error. -/
theorem sort_param_resolution_witness :
    (∀ m : PostSortType, m.toDisplay ≠ "bogus") ∧
    Params.sort_type { sort := some "bogus", limit := none } =
      .error (.badRequestSort (.invalidVariant "bogus")) :=
  ⟨fun m => by cases m <;> decide,
   ((sort_param_resolution none).2.2 "bogus"
      (fun m => by cases m <;> decide)).1⟩

/-! ## C9: limit parameter resolution -/

/-- C9: `Params::get_limit` returns the fixed default 20 when the limit is
absent and the caller-supplied integer verbatim when present, for every
integer (no clamping). -/
theorem limit_param_resolution :
    (∀ (s : Option String) (n : Int),
      Params.get_limit { sort := s, limit := some n } = n) ∧
    (∀ s : Option String,
      Params.get_limit { sort := s, limit := none } = RSS_FETCH_LIMIT) ∧
    RSS_FETCH_LIMIT = 20 :=
  ⟨fun _ _ => rfl, fun _ => rfl, rfl⟩

/-! ## C1: invalid sort strings on the feed routes -/

/-- C1 counterexample: the claim says every feed route answers an invalid
`sort` string with a 400 and performs no content query; but the `u` route
never parses the sort parameter — with the invalid sort string `"bogus"`
(rejected by the parser, first conjunct) the request succeeds and a content
query is performed against the storage layer. -/
theorem invalid_sort_user_route_not_rejected :
    PostSortType.from_str "bogus" = .error (.invalidVariant "bogus") ∧
    (handle demo_world demo_settings (.u "alice")
        { sort := some "bogus", limit := none }).1.isOk = true ∧
    ((handle demo_world demo_settings (.u "alice")
        { sort := some "bogus", limit := none }).2.any
      StorageOp.isContentQuery) = true :=
  ⟨rfl, by decide, by decide⟩

/-- C1 (amended): on the `c`, `front`, `all` and `local` routes a request
whose sort string matches no variant name yields the 400 bad-request error
with no storage operation performed at all; the `u` and `inbox` routes
ignore the sort parameter entirely (their response is the one computed with
no sort supplied). -/
theorem invalid_sort_rejected (w : World) (settings : Settings) (info : Params)
    (s name jwt : String) (hs : info.sort = some s)
    (hbad : ∀ m : PostSortType, m.toDisplay ≠ s) :
    (∀ route ∈ [FeedRoute.c name, FeedRoute.front jwt, FeedRoute.all,
        FeedRoute.local],
       (handle w settings route info).1 =
         .error (.badRequestSort (.invalidVariant s)) ∧
       (ActixError.badRequestSort (.invalidVariant s)).is_bad_request = true ∧
       (handle w settings route info).2 = []) ∧
    (handle w settings (.u name) info =
       handle w settings (.u name) { info with sort := none }) ∧
    (handle w settings (.inbox jwt) info =
       handle w settings (.inbox jwt) { info with sort := none }) := by
  obtain ⟨so, li⟩ := info
  simp only at hs
  subst hs
  have hsort : Params.sort_type { sort := some s, limit := li } =
      .error (.badRequestSort (.invalidVariant s)) :=
    sort_type_invalid s li hbad
  refine ⟨?_, rfl, rfl⟩
  intro route hr
  fin_cases hr
  all_goals simp [handle, get_feed, get_all_feed, get_local_feed, hsort,
    ActixError.is_bad_request]

/-- C1 witness: the community route rejects the invalid sort string
`"bogus"` with a 400 and performs no storage operation. -/
theorem invalid_sort_rejected_witness :
    (handle demo_world demo_settings (.c "rust")
        { sort := some "bogus", limit := none }).1 =
      .error (.badRequestSort (.invalidVariant "bogus")) ∧
    (handle demo_world demo_settings (.c "rust")
        { sort := some "bogus", limit := none }).2 = [] := by
  have h := (invalid_sort_rejected demo_world demo_settings
      { sort := some "bogus", limit := none } "bogus" "rust" "token" rfl
      (fun m => by cases m <;> decide)).1 (.c "rust") (by simp)
  exact ⟨h.1, h.2.2⟩

/-! ## C10: the private-instance gate on the user and community feeds -/

/-- C10: on a private instance both `get_feed_user` and `get_feed_community`
fail for anonymous requests (the gate is called with no identity), and in
both handlers the target is resolved first — a missing target (or a
community hidden from anonymous viewers) yields `NotFound` before the gate
can fail. -/
theorem private_gate_user_and_community (w : World) (settings : Settings)
    (st : PostSortType) (limit : Int) (name : String)
    (hpriv : w.site_view.local_site.private_instance = true) :
    ((w.person_by_name name = none →
        (get_feed_user w settings limit name).1 = .error .NotFound) ∧
     (∀ p, w.person_by_name name = some p →
        (get_feed_user w settings limit name).1 = .error .InstanceIsPrivate)) ∧
    ((w.community_by_name name = none →
        (get_feed_community w settings st limit name).1 = .error .NotFound) ∧
     (∀ c, w.community_by_name name = some c → c.visibility_public = true →
        (get_feed_community w settings st limit name).1 =
          .error .InstanceIsPrivate)) := by
  have hcp : check_private_instance none w.site_view.local_site =
      .error .InstanceIsPrivate := by
    unfold check_private_instance
    simp [hpriv]
  refine ⟨⟨?_, ?_⟩, ?_, ?_⟩
  · intro h; simp [get_feed_user, h]
  · intro p h; simp [get_feed_user, h, hcp]
  · intro h; simp [get_feed_community, h]
  · intro c h hv; simp [get_feed_community, h, hv, hcp]

/-- C10 witness: on the private demo instance, a missing user or community
is `NotFound`, an existing one trips the private-instance gate. -/
theorem private_gate_witness :
    demo_private_world.site_view.local_site.private_instance = true ∧
    (get_feed_user demo_private_world demo_settings 20 "nobody").1 =
      .error .NotFound ∧
    (get_feed_user demo_private_world demo_settings 20 "alice").1 =
      .error .InstanceIsPrivate ∧
    (get_feed_community demo_private_world demo_settings .Hot 20 "missing").1 =
      .error .NotFound ∧
    (get_feed_community demo_private_world demo_settings .Hot 20 "rust").1 =
      .error .InstanceIsPrivate := by
  have h1 := private_gate_user_and_community demo_private_world demo_settings
    .Hot 20 "nobody" rfl
  have h2 := private_gate_user_and_community demo_private_world demo_settings
    .Hot 20 "alice" rfl
  have h3 := private_gate_user_and_community demo_private_world demo_settings
    .Hot 20 "missing" rfl
  have h4 := private_gate_user_and_community demo_private_world demo_settings
    .Hot 20 "rust" rfl
  exact ⟨rfl, h1.1.1 rfl, h2.1.2 demo_person rfl, h3.2.1 rfl,
    h4.2.2 demo_community rfl rfl⟩

/-! ## C2: channel descriptions -/

/-- C2 counterexample: the claim says every feed kind emits the
HTML-rendered form of the description; but the all/local feed copies the
site description verbatim — on the demo site whose description is
`"**about**"` the emitted channel description is the raw markdown, which
differs from its HTML rendering. -/
theorem channel_description_not_rendered :
    ((get_feed_data demo_world demo_settings .All .Hot 20).1.map
        (fun r => r.channel.description)) = .ok (some "**about**") ∧
    markdown_to_html "**about**" ≠ "**about**" :=
  ⟨rfl, by decide⟩

/-- C2 (amended): when the community (community feed) or site (front feed)
description is present those two channels carry its HTML-rendered form; the
all/local and inbox channels copy the raw site description unrendered; the
user channel never sets a description; in every feed an absent description
leaves the channel description unset (`none`), never the empty string. -/
theorem channel_description_behavior (w : World) (settings : Settings)
    (st : PostSortType) (limit : Int) (lt : ListingType) (name jwt : String) :
    ((get_feed_data w settings lt st limit).1.map (fun r => r.channel.description) =
      (get_feed_data w settings lt st limit).1.map
        (fun _ => w.site_view.site.description)) ∧
    ((get_feed_user w settings limit name).1.map (fun c => c.description) =
      (get_feed_user w settings limit name).1.map (fun _ => (none : Option String))) ∧
    ((get_feed_community w settings st limit name).1.map (fun c => c.description) =
      (get_feed_community w settings st limit name).1.map (fun _ =>
        ((w.community_by_name name).bind (fun c => c.description)).map
          markdown_to_html)) ∧
    ((get_feed_front w settings st limit jwt).1.map (fun c => c.description) =
      (get_feed_front w settings st limit jwt).1.map (fun _ =>
        w.site_view.site.description.map markdown_to_html)) ∧
    ((get_feed_inbox w settings jwt).1.map (fun c => c.description) =
      (get_feed_inbox w settings jwt).1.map
        (fun _ => w.site_view.site.description)) := by
  refine ⟨?_, ?_, ?_, ?_, ?_⟩
  · simp only [get_feed_data]
    repeat' split
    all_goals simp_all [Channel.set_description, Except.map]
  · simp only [get_feed_user]
    repeat' split
    all_goals simp_all [Channel.set_description, Except.map]
  · simp only [get_feed_community]
    repeat' split
    all_goals simp_all [Channel.set_description, Except.map]
  · simp only [get_feed_front]
    repeat' split
    all_goals simp_all [Channel.set_description, Except.map]
  · simp only [get_feed_inbox]
    repeat' split
    all_goals simp_all [Channel.set_description, Except.map]

/-! ## C4, C5: shape of post-derived items -/

/-- The attribution part of a post item's description, as the spec states
it: creator link, community link, score, and comment count linking to the
permalink. -/
def attribution_html (p : PostView) (community_url post_url : String) : String :=
  "submitted by <a href=\"" ++ p.creator.ap_id ++ "\">" ++ p.creator.name ++
    "</a> to <a href=\"" ++ community_url ++ "\">" ++ p.community.name ++
    "</a><br>" ++ toString p.post.score ++ " points | <a href=\"" ++
    post_url ++ "\">" ++ toString p.post.comments ++ " comments</a>"

/-- The external-URL part of a post item's description: an image-preview
anchor when the declared media type starts with `image/`, a plain link
anchor otherwise, nothing when the post has no URL. -/
def url_line_html (p : PostView) : String :=
  match p.post.url with
  | some url =>
    if string_starts_with (p.post.url_content_type.getD "application/octet-stream")
        "image/" then
      "<br><a href=\"" ++ url ++ "\"><img src=\"" ++ url ++ "\"/></a>"
    else
      "<br><a href=\"" ++ url ++ "\">" ++ url ++ "</a>"
  | none => ""

/-- The rendered-body part of a post item's description. -/
def body_html (p : PostView) : String :=
  match p.post.body with
  | some body => markdown_to_html body
  | none => ""

/-- C4: a post becomes an item titled `"[{community_name}] {post_title}"`
with exactly one category `{name: community title, domain: community
ap_id}`, and a description concatenated in the fixed order attribution ++
URL line ++ rendered body. -/
theorem post_item_shape (p : PostView) (rest : List PostView)
    (settings : Settings) (post_url community_url : String) (tail : List Item)
    (hp : p.post.local_url settings = .ok post_url)
    (hc : Community.local_url p.community.name settings = .ok community_url)
    (ht : create_post_items rest settings = .ok tail) :
    ∃ i : Item, create_post_items (p :: rest) settings = .ok (i :: tail) ∧
      i.title = some ("[" ++ p.community.name ++ "] " ++ p.post.name) ∧
      i.categories =
        [{ name := p.community.title, domain := some p.community.ap_id }] ∧
      i.description =
        some (attribution_html p community_url post_url ++ url_line_html p ++
          body_html p) := by
  simp only [create_post_items, hp, hc, ht]
  refine ⟨_, rfl, rfl, rfl, ?_⟩
  unfold attribution_html url_line_html body_html
  cases hu : p.post.url with
  | none =>
    cases hb : p.post.body with
    | none => simp [hu, hb]
    | some body => simp [hu, hb]
  | some url =>
    cases hb : p.post.body with
    | none =>
      cases him : (string_starts_with
          (p.post.url_content_type.getD "application/octet-stream") "image/") <;>
        simp [hu, hb, him, String.append_assoc]
    | some body =>
      cases him : (string_starts_with
          (p.post.url_content_type.getD "application/octet-stream") "image/") <;>
        simp [hu, hb, him, String.append_assoc]
/-- C4 witness: the demo post renders with the claimed title. -/
theorem post_item_shape_witness :
    demo_post_view1.post.local_url demo_settings =
      .ok "https://example.com/post/1" ∧
    (create_post_items [demo_post_view1] demo_settings).map
        (fun items => items.map (fun i => i.title)) =
      .ok [some "[rust] First"] := by
  obtain ⟨i, hok, htitle, _, _⟩ := post_item_shape demo_post_view1 []
    demo_settings "https://example.com/post/1" "https://example.com/c/rust"
    [] (by decide) (by decide) rfl
  refine ⟨by decide, ?_⟩
  rw [hok]
  simp [Except.map, htitle, demo_post_view1, demo_community, demo_post1]

/-- C5: a post with an external URL yields an item whose enclosure carries
that URL, the declared media type (defaulting to
`application/octet-stream`), and the literal length `"0"`; its description
gains an image-preview anchor exactly when the media type starts with
`image/` and a plain link anchor otherwise; a post with no URL yields an
item with no enclosure. -/
theorem post_item_enclosure (p : PostView) (settings : Settings)
    (post_url community_url : String)
    (hp : p.post.local_url settings = .ok post_url)
    (hc : Community.local_url p.community.name settings = .ok community_url) :
    (∀ url, p.post.url = some url →
      ∃ i : Item, create_post_items [p] settings = .ok [i] ∧
        i.enclosure = some
          { url := url,
            mime_type := p.post.url_content_type.getD "application/octet-stream",
            length := "0" } ∧
        (string_starts_with
            (p.post.url_content_type.getD "application/octet-stream")
            "image/" = true →
          i.description = some (attribution_html p community_url post_url ++
            ("<br><a href=\"" ++ url ++ "\"><img src=\"" ++ url ++
              "\"/></a>") ++ body_html p)) ∧
        (string_starts_with
            (p.post.url_content_type.getD "application/octet-stream")
            "image/" = false →
          i.description = some (attribution_html p community_url post_url ++
            ("<br><a href=\"" ++ url ++ "\">" ++ url ++ "</a>") ++
            body_html p))) ∧
    (p.post.url = none →
      ∃ i : Item, create_post_items [p] settings = .ok [i] ∧
        i.enclosure = none) := by
  constructor
  · intro url hu
    simp only [create_post_items, hp, hc, hu]
    refine ⟨_, rfl, ?_, ?_, ?_⟩
    · simp
    · intro him
      unfold attribution_html body_html
      cases hb : p.post.body <;> simp [him, hb, String.append_assoc]
    · intro him
      unfold attribution_html body_html
      cases hb : p.post.body <;> simp [him, hb, String.append_assoc]
  · intro hu
    simp only [create_post_items, hp, hc, hu]
    exact ⟨_, rfl, rfl⟩

/-- C5 witness: the demo image post carries the image enclosure and the
demo post without URL carries none. -/
theorem post_item_enclosure_witness :
    demo_post_view2.post.url = some "https://img.example.com/x.png" ∧
    (create_post_items [demo_post_view2] demo_settings).map
        (fun items => items.map (fun i => i.enclosure)) =
      .ok [some
        { url := "https://img.example.com/x.png",
          mime_type := "image/png", length := "0" }] ∧
    demo_post_view1.post.url = none ∧
    (create_post_items [demo_post_view1] demo_settings).map
        (fun items => items.map (fun i => i.enclosure)) = .ok [none] := by
  obtain ⟨i, hok2, henc2, _, _⟩ := (post_item_enclosure demo_post_view2
    demo_settings "https://example.com/post/2" "https://example.com/c/rust"
    (by decide) (by decide)).1 "https://img.example.com/x.png" rfl
  obtain ⟨j, hok1, henc1⟩ := (post_item_enclosure demo_post_view1
    demo_settings "https://example.com/post/1" "https://example.com/c/rust"
    (by decide) (by decide)).2 rfl
  refine ⟨rfl, ?_, rfl, ?_⟩
  · rw [hok2]; simp [Except.map, henc2, demo_post_view2, demo_post2]
  · rw [hok1]; simp [Except.map, henc1]

/-- C6: every inbox notification becomes an item titled
`"Reply from {creator_name}"`; link and identifier are the comment/post
permalink for the first three subtypes and `{base}/inbox` for private
messages; the description is the HTML-rendered body, the empty string
standing in for an absent post-mention body. -/
theorem notification_item_shape (settings : Settings) (base : String) :
    (∀ (v : CommentReplyView) (u : String),
      v.comment.local_url settings = .ok u →
      ∃ i : Item, create_reply_and_mention_items [.CommentReply v] base
          settings = .ok [i] ∧
        i.title = some ("Reply from " ++ v.creator.name) ∧
        i.link = some u ∧ i.guid = some { permalink := true, value := u } ∧
        i.description = some (markdown_to_html v.comment.content)) ∧
    (∀ (v : PersonCommentMentionView) (u : String),
      v.comment.local_url settings = .ok u →
      ∃ i : Item, create_reply_and_mention_items [.CommentMention v] base
          settings = .ok [i] ∧
        i.title = some ("Reply from " ++ v.creator.name) ∧
        i.link = some u ∧ i.guid = some { permalink := true, value := u } ∧
        i.description = some (markdown_to_html v.comment.content)) ∧
    (∀ (v : PersonPostMentionView) (u : String),
      v.post.local_url settings = .ok u →
      ∃ i : Item, create_reply_and_mention_items [.PostMention v] base
          settings = .ok [i] ∧
        i.title = some ("Reply from " ++ v.creator.name) ∧
        i.link = some u ∧ i.guid = some { permalink := true, value := u } ∧
        i.description = some (markdown_to_html (v.post.body.getD ""))) ∧
    (∀ v : PrivateMessageView,
      ∃ i : Item, create_reply_and_mention_items [.PrivateMessage v] base
          settings = .ok [i] ∧
        i.title = some ("Reply from " ++ v.creator.name) ∧
        i.link = some (base ++ "/inbox") ∧
        i.guid = some { permalink := true, value := base ++ "/inbox" } ∧
        i.description = some (markdown_to_html v.private_message.content)) := by
  refine ⟨?_, ?_, ?_, ?_⟩
  · intro v u h
    simp only [create_reply_and_mention_items, build_item, h]
    exact ⟨_, rfl, rfl, rfl, rfl, rfl⟩
  · intro v u h
    simp only [create_reply_and_mention_items, build_item, h]
    exact ⟨_, rfl, rfl, rfl, rfl, rfl⟩
  · intro v u h
    simp only [create_reply_and_mention_items, build_item, h]
    exact ⟨_, rfl, rfl, rfl, rfl, rfl⟩
  · intro v
    simp only [create_reply_and_mention_items, build_item]
    exact ⟨_, rfl, rfl, rfl, rfl, rfl⟩

/-- C6 witness: a comment reply and a private message render with the
claimed titles and distinct links. -/
theorem notification_item_shape_witness :
    demo_reply.comment.local_url demo_settings =
      .ok "https://example.com/comment/9" ∧
    (create_reply_and_mention_items [.CommentReply demo_reply]
        "https://example.com" demo_settings).map
        (fun items => items.map (fun i => (i.title, i.link))) =
      .ok [(some "Reply from alice", some "https://example.com/comment/9")] ∧
    (create_reply_and_mention_items [.PrivateMessage demo_pm1]
        "https://example.com" demo_settings).map
        (fun items => items.map (fun i => (i.title, i.link))) =
      .ok [(some "Reply from alice", some "https://example.com/inbox")] := by
  obtain ⟨i, hok, ht, hl, _, _⟩ :=
    (notification_item_shape demo_settings "https://example.com").1
      demo_reply "https://example.com/comment/9" (by decide)
  obtain ⟨j, hok2, ht2, hl2, _, _⟩ :=
    (notification_item_shape demo_settings "https://example.com").2.2.2
      demo_pm1
  refine ⟨by decide, ?_, ?_⟩
  · rw [hok]; simp [Except.map, ht, hl, demo_reply, demo_person]
  · rw [hok2]; simp [Except.map, ht2, hl2, demo_pm1, demo_person]

/-! ## C7: permalink failures abort the render -/

/-- Whether item construction for one inbox record fails (only permalink
construction can fail; a private message never does). -/
def notification_permalink_fails (settings : Settings) :
    InboxCombinedView → Bool
  | .CommentReply v => !(except_is_ok (v.comment.local_url settings))
  | .CommentMention v => !(except_is_ok (v.comment.local_url settings))
  | .PostMention v => !(except_is_ok (v.post.local_url settings))
  | .PrivateMessage _ => false

/-- C7: if permalink construction fails for any record, both
item-construction algorithms return an error — no partial item list — and
the surrounding feed render (`get_feed_data`, `get_feed_inbox`) aborts with
no channel emitted. -/
theorem permalink_failure_aborts (settings : Settings) :
    (∀ (posts : List PostView) (p : PostView), p ∈ posts →
      (except_is_ok (p.post.local_url settings) = false ∨
       except_is_ok (Community.local_url p.community.name settings) = false) →
      except_is_ok (create_post_items posts settings) = false) ∧
    (∀ (inbox : List InboxCombinedView) (base : String)
        (r : InboxCombinedView), r ∈ inbox →
      notification_permalink_fails settings r = true →
      except_is_ok (create_reply_and_mention_items inbox base settings) = false) ∧
    (∀ (w : World) (lt : ListingType) (st : PostSortType) (limit : Int),
      except_is_ok (create_post_items
        (w.post_query
          { listing_type := some lt, sort := some st, limit := some limit })
        settings) = false →
      except_is_ok (get_feed_data w settings lt st limit).1 = false) ∧
    (∀ (w : World) (jwt : String) (lu : LocalUserView),
      w.user_from_jwt jwt = some lu →
      except_is_ok (create_reply_and_mention_items
        (w.inbox_query
          { show_bot_accounts := some lu.local_user.show_bot_accounts })
        settings.get_protocol_and_hostname settings) = false →
      except_is_ok (get_feed_inbox w settings jwt).1 = false) := by
  refine ⟨?_, ?_, ?_, ?_⟩
  · intro posts
    induction posts with
    | nil => intro p hp; cases hp
    | cons q rest ih =>
      intro p hp hfail
      rcases List.mem_cons.mp hp with rfl | hmem
      · rcases hq : p.post.local_url settings with e | pu
        · simp [create_post_items, hq, except_is_ok]
        · rcases hc : Community.local_url p.community.name settings with e | cu
          · simp [create_post_items, hq, hc, except_is_ok]
          · exfalso
            rcases hfail with h | h
            · rw [hq] at h; simp [except_is_ok] at h
            · rw [hc] at h; simp [except_is_ok] at h
      · rcases hq : q.post.local_url settings with e | pu
        · simp [create_post_items, hq, except_is_ok]
        · rcases hc : Community.local_url q.community.name settings with e | cu
          · simp [create_post_items, hq, hc, except_is_ok]
          · have hrec := ih p hmem hfail
            rcases hrest : create_post_items rest settings with e | tail
            · simp [create_post_items, hq, hc, hrest, except_is_ok]
            · rw [hrest] at hrec; simp [except_is_ok] at hrec
  · intro inbox base
    induction inbox with
    | nil => intro r hr; cases hr
    | cons q rest ih =>
      intro r hr hfail
      rcases List.mem_cons.mp hr with rfl | hmem
      · cases r with
        | CommentReply v =>
          rcases hq : v.comment.local_url settings with e | u
          · simp [create_reply_and_mention_items, hq, except_is_ok]
          · exfalso
            simp [notification_permalink_fails, hq, except_is_ok] at hfail
        | CommentMention v =>
          rcases hq : v.comment.local_url settings with e | u
          · simp [create_reply_and_mention_items, hq, except_is_ok]
          · exfalso
            simp [notification_permalink_fails, hq, except_is_ok] at hfail
        | PostMention v =>
          rcases hq : v.post.local_url settings with e | u
          · simp [create_reply_and_mention_items, hq, except_is_ok]
          · exfalso
            simp [notification_permalink_fails, hq, except_is_ok] at hfail
        | PrivateMessage v =>
          exfalso
          simp [notification_permalink_fails] at hfail
      · have hrec := ih r hmem hfail
        rcases hrest : create_reply_and_mention_items rest base settings
          with e | tail
        · cases q with
          | CommentReply v =>
            rcases hq : v.comment.local_url settings with e2 | u
            · simp [create_reply_and_mention_items, hq, except_is_ok]
            · simp [create_reply_and_mention_items, hq, hrest, build_item,
                except_is_ok]
          | CommentMention v =>
            rcases hq : v.comment.local_url settings with e2 | u
            · simp [create_reply_and_mention_items, hq, except_is_ok]
            · simp [create_reply_and_mention_items, hq, hrest, build_item,
                except_is_ok]
          | PostMention v =>
            rcases hq : v.post.local_url settings with e2 | u
            · simp [create_reply_and_mention_items, hq, except_is_ok]
            · simp [create_reply_and_mention_items, hq, hrest, build_item,
                except_is_ok]
          | PrivateMessage v =>
            simp [create_reply_and_mention_items, hrest, build_item,
              except_is_ok]
        · rw [hrest] at hrec; simp [except_is_ok] at hrec
  · intro w lt st limit h
    simp only [get_feed_data]
    rcases hcp : check_private_instance none w.site_view.local_site with e | u
    · simp [except_is_ok]
    · rcases hitems : create_post_items
          (w.post_query
            { listing_type := some lt, sort := some st, limit := some limit })
          settings with e | items
      · simp [hitems, except_is_ok]
      · rw [hitems] at h; simp [except_is_ok] at h
  · intro w jwt lu hlu h
    simp only [get_feed_inbox, hlu]
    rcases hcp : check_private_instance (some lu) w.site_view.local_site
      with e | u
    · simp [except_is_ok]
    · rcases hitems : create_reply_and_mention_items
          (w.inbox_query
            { show_bot_accounts := some lu.local_user.show_bot_accounts })
          settings.get_protocol_and_hostname settings with e | items
      · simp [hitems, except_is_ok]
      · rw [hitems] at h; simp [except_is_ok] at h

/-- A demo authenticated identity. -/
def demo_user : LocalUserView :=
  { person := demo_person, local_user := { show_bot_accounts := true } }

/-- The demo world with one post, one inbox record, and one valid JWT. -/
def demo_world_content : World :=
  { demo_world with
    post_query := fun _ => [demo_post_view1],
    inbox_query := fun _ => [.CommentReply demo_reply],
    user_from_jwt := fun t => if t = "token" then some demo_user else none }

/-- C7 witness: with the malformed base URL of `bad_settings` the demo
post's permalink fails, and both algorithms and both surrounding renders
abort. -/
theorem permalink_failure_witness :
    except_is_ok (demo_post_view1.post.local_url bad_settings) = false ∧
    except_is_ok (create_post_items [demo_post_view1] bad_settings) = false ∧
    notification_permalink_fails bad_settings (.CommentReply demo_reply) = true ∧
    except_is_ok (create_reply_and_mention_items [.CommentReply demo_reply]
      "example.invalid" bad_settings) = false ∧
    except_is_ok (get_feed_data demo_world_content bad_settings .All .Hot 20).1 =
      false ∧
    except_is_ok (get_feed_inbox demo_world_content bad_settings "token").1 =
      false := by
  refine ⟨by decide, ?_, by decide, ?_, ?_, ?_⟩
  · exact (permalink_failure_aborts bad_settings).1 [demo_post_view1]
      demo_post_view1 (List.mem_singleton.mpr rfl) (Or.inl (by decide))
  · exact (permalink_failure_aborts bad_settings).2.1 [.CommentReply demo_reply]
      "example.invalid" (.CommentReply demo_reply)
      (List.mem_singleton.mpr rfl) (by decide)
  · exact (permalink_failure_aborts bad_settings).2.2.1 demo_world_content
      .All .Hot 20 (by decide)
  · exact (permalink_failure_aborts bad_settings).2.2.2 demo_world_content
      "token" demo_user (by decide) (by decide)

/-! ## C3: item identifiers -/

/-- The numeric value of a run of decimal digit characters. -/
def digits_val (ds : List Char) : Nat :=
  ds.foldl (fun a c => 10 * a + (c.toNat - 48)) 0

/-- The code point of a decimal digit character. -/
theorem digitChar_toNat {m : Nat} (hm : m < 10) :
    (Nat.digitChar m).toNat = 48 + m := by
  interval_cases m <;> decide

/-- One unfolding step of core's `Nat.toDigitsCore` at base 10. -/
theorem toDigitsCore_unfold (fuel n : Nat) (acc : List Char) :
    Nat.toDigitsCore 10 (fuel + 1) n acc =
      if n / 10 = 0 then Nat.digitChar (n % 10) :: acc
      else Nat.toDigitsCore 10 fuel (n / 10) (Nat.digitChar (n % 10) :: acc) := by
  rfl

/-- `Nat.toDigitsCore` at base 10 with enough fuel produces a non-empty
digit run in front of the accumulator whose value is the input. -/
theorem toDigitsCore_spec (fuel : Nat) :
    ∀ (n : Nat) (acc : List Char), n < fuel →
    ∃ ds : List Char, Nat.toDigitsCore 10 fuel n acc = ds ++ acc ∧ ds ≠ [] ∧
      digits_val ds = n := by
  induction fuel with
  | zero => intro n acc h; omega
  | succ fuel ih =>
    intro n acc hn
    rw [toDigitsCore_unfold]
    by_cases h10 : n / 10 = 0
    · rw [if_pos h10]
      have hlt : n < 10 := by omega
      refine ⟨[Nat.digitChar (n % 10)], rfl, by simp, ?_⟩
      simp [digits_val, digitChar_toNat (Nat.mod_lt n (by omega))]
      omega
    · rw [if_neg h10]
      have hge : 10 ≤ n := by omega
      obtain ⟨ds, hds, hne, hval⟩ :=
        ih (n / 10) (Nat.digitChar (n % 10) :: acc) (by omega)
      refine ⟨ds ++ [Nat.digitChar (n % 10)], ?_, by simp, ?_⟩
      · rw [hds, List.append_assoc]; rfl
      · simp [digits_val, List.foldl_append] at hval ⊢
        rw [hval, digitChar_toNat (Nat.mod_lt n (by omega))]
        omega

/-- The decimal rendering of a natural number determines it. -/
theorem nat_repr_injective {m n : Nat} (h : Nat.repr m = Nat.repr n) :
    m = n := by
  obtain ⟨ds1, h1, _, hv1⟩ := toDigitsCore_spec (m + 1) m [] (Nat.lt_succ_self m)
  obtain ⟨ds2, h2, _, hv2⟩ := toDigitsCore_spec (n + 1) n [] (Nat.lt_succ_self n)
  unfold Nat.repr Nat.toDigits at h
  rw [h1, h2, List.append_nil, List.append_nil] at h
  have hds : ds1 = ds2 := congrArg String.data h
  rw [hds] at hv1
  omega

/-- `toString` on `Nat` is injective. -/
theorem nat_toString_injective {m n : Nat} (h : toString m = toString n) :
    m = n :=
  nat_repr_injective h

/-- A common left part of a string append cancels. -/
theorem string_append_left_cancel {s a b : String} (h : s ++ a = s ++ b) :
    a = b := by
  have hd : s.data ++ a.data = s.data ++ b.data := congrArg String.data h
  exact String.ext (List.append_cancel_left hd)
/-- A successful URL parse returns its input. -/
theorem parse_url_ok {s u : String} (h : parse_url s = .ok u) : u = s := by
  unfold parse_url at h
  split at h
  · cases h; rfl
  · cases h

/-- Post permalinks of distinct post ids are distinct. -/
theorem post_urls_ne (settings : Settings) {a b : Nat} (h : a ≠ b) :
    settings.get_protocol_and_hostname ++ "/post/" ++ toString a ≠
      settings.get_protocol_and_hostname ++ "/post/" ++ toString b := by
  intro he
  exact h (nat_toString_injective (string_append_left_cancel he))

/-- For a successful post-item construction: every item's guid value is its
link with the permanent flag set, and the guid list is exactly the
permalinks of the input posts, in order — the identifier is a function of
the content record. -/
theorem post_items_guid_spec (settings : Settings) :
    ∀ (posts : List PostView) (items : List Item),
      create_post_items posts settings = .ok items →
      (∀ i ∈ items, i.guid.map Guid.value = i.link ∧
        i.guid.map Guid.permalink = some true) ∧
      items.map (fun it => it.guid) =
        posts.map (fun p => some
          { permalink := true,
            value := settings.get_protocol_and_hostname ++ "/post/" ++
              toString p.post.id : Guid }) := by
  intro posts
  induction posts with
  | nil =>
    intro items h
    simp [create_post_items] at h
    subst h
    exact ⟨by simp, by simp⟩
  | cons p rest ih =>
    intro items h
    rcases hq : p.post.local_url settings with e | pu
    · simp only [create_post_items, hq] at h; simp at h
    · rcases hc : Community.local_url p.community.name settings with e | cu
      · simp only [create_post_items, hq, hc] at h; simp at h
      · rcases hrest : create_post_items rest settings with e | tail
        · simp only [create_post_items, hq, hc, hrest] at h; simp at h
        · simp only [create_post_items, hq, hc, hrest,
            Except.ok.injEq] at h
          subst h
          have hq' : parse_url (settings.get_protocol_and_hostname ++
              "/post/" ++ toString p.post.id) = .ok pu := hq
          have hpu : pu = settings.get_protocol_and_hostname ++ "/post/" ++
              toString p.post.id := parse_url_ok hq'
          obtain ⟨ihl, ihm⟩ := ih tail hrest
          constructor
          · intro i hi
            rcases List.mem_cons.mp hi with rfl | hm
            · exact ⟨rfl, rfl⟩
            · exact ihl i hm
          · simp only [List.map_cons, ihm, hpu]
/-- For a successful notification-item construction, every item's guid
value is its link with the permanent flag set. -/
theorem notification_items_guid (settings : Settings) (base : String) :
    ∀ (inbox : List InboxCombinedView) (items : List Item),
      create_reply_and_mention_items inbox base settings = .ok items →
      ∀ i ∈ items, i.guid.map Guid.value = i.link ∧
        i.guid.map Guid.permalink = some true := by
  intro inbox
  induction inbox with
  | nil =>
    intro items h
    simp [create_reply_and_mention_items] at h
    subst h
    simp
  | cons q rest ih =>
    intro items h
    rcases hrest : create_reply_and_mention_items rest base settings
      with e | tail
    all_goals cases q with
    | CommentReply v =>
      rcases hq : v.comment.local_url settings with e2 | u <;>
        simp only [create_reply_and_mention_items, build_item, hq, hrest,
          Except.ok.injEq] at h <;> try simp at h
      first
      | (subst h
         intro i hi
         rcases List.mem_cons.mp hi with rfl | hm
         · exact ⟨rfl, rfl⟩
         · exact ih tail hrest i hm)
      | skip
    | CommentMention v =>
      rcases hq : v.comment.local_url settings with e2 | u <;>
        simp only [create_reply_and_mention_items, build_item, hq, hrest,
          Except.ok.injEq] at h <;> try simp at h
      first
      | (subst h
         intro i hi
         rcases List.mem_cons.mp hi with rfl | hm
         · exact ⟨rfl, rfl⟩
         · exact ih tail hrest i hm)
      | skip
    | PostMention v =>
      rcases hq : v.post.local_url settings with e2 | u <;>
        simp only [create_reply_and_mention_items, build_item, hq, hrest,
          Except.ok.injEq] at h <;> try simp at h
      first
      | (subst h
         intro i hi
         rcases List.mem_cons.mp hi with rfl | hm
         · exact ⟨rfl, rfl⟩
         · exact ih tail hrest i hm)
      | skip
    | PrivateMessage v =>
      simp only [create_reply_and_mention_items, build_item, hrest,
        Except.ok.injEq] at h
      first
      | simp at h
      | (subst h
         intro i hi
         rcases List.mem_cons.mp hi with rfl | hm
         · exact ⟨rfl, rfl⟩
         · exact ih tail hrest i hm)
/-- C3 (amended): every constructed item's guid equals its link and is
marked permanent; for post items the guid is a function of the post record
(stability) and distinct post ids give distinct guids within one channel;
notification items also have guid = link and permanent, but distinct
records need not give distinct identifiers there (all private messages
share `{base}/inbox`). -/
theorem item_guid_properties (settings : Settings) :
    (∀ (posts : List PostView) (items : List Item),
      create_post_items posts settings = .ok items →
      (∀ i ∈ items, i.guid.map Guid.value = i.link ∧
        i.guid.map Guid.permalink = some true) ∧
      (items.map (fun it => it.guid) =
        posts.map (fun p => some
          { permalink := true,
            value := settings.get_protocol_and_hostname ++ "/post/" ++
              toString p.post.id : Guid })) ∧
      (∀ (i j : Nat) (hi : i < posts.length) (hj : j < posts.length),
        (posts[i]).post.id ≠ (posts[j]).post.id →
        (items.map (fun it => it.guid))[i]? ≠
          (items.map (fun it => it.guid))[j]?)) ∧
    (∀ (inbox : List InboxCombinedView) (base : String) (items : List Item),
      create_reply_and_mention_items inbox base settings = .ok items →
      ∀ i ∈ items, i.guid.map Guid.value = i.link ∧
        i.guid.map Guid.permalink = some true) := by
  constructor
  · intro posts items h
    obtain ⟨hl, hmap⟩ := post_items_guid_spec settings posts items h
    refine ⟨hl, hmap, ?_⟩
    intro i j hi hj hne he
    rw [hmap, List.getElem?_map, List.getElem?_map,
      List.getElem?_eq_getElem hi, List.getElem?_eq_getElem hj] at he
    simp at he
    exact post_urls_ne settings hne he
  · intro inbox base items h
    exact notification_items_guid settings base inbox items h

/-- The items built from the demo posts. -/
def demo_post_items : List Item :=
  (create_post_items demo_posts demo_settings).toOption.getD []

/-- C3 counterexample: two distinct private-message records in one channel
produce identical identifiers (`{base}/inbox`), so identifiers of distinct
underlying content records within one channel are not always distinct. -/
theorem private_message_guids_collide :
    demo_pm1 ≠ demo_pm2 ∧
    (create_reply_and_mention_items
        [.PrivateMessage demo_pm1, .PrivateMessage demo_pm2]
        "https://example.com" demo_settings).map
      (fun items => items.map (fun i => i.guid)) =
      .ok [some { permalink := true, value := "https://example.com/inbox" },
           some { permalink := true, value := "https://example.com/inbox" }] :=
  ⟨by decide, rfl⟩

/-- C3 witness: the two demo posts with distinct ids yield distinct
guids. -/
theorem item_guid_properties_witness :
    create_post_items demo_posts demo_settings = .ok demo_post_items ∧
    (demo_post_items.map (fun it => it.guid))[0]? ≠
      (demo_post_items.map (fun it => it.guid))[1]? := by
  have h : create_post_items demo_posts demo_settings = .ok demo_post_items :=
    rfl
  refine ⟨h, ?_⟩
  exact ((item_guid_properties demo_settings).1 demo_posts demo_post_items
    h).2.2 0 1 (by decide) (by decide) (by decide)

end Feeds
